import Mathlib

/-!
Shallow embedding of the conversation session state machine of
`src/app.py` (Streamlit RAG chat front-end), together with theorems
settling the specification claims about it.

The embedded parts are:
  * the session state (`st.session_state`: `messages`,
    `show_all_messages`, `selected_question`), from
    `initialize_session_state` and the uses across the file;
  * `handle_question_selection` (app.py lines 878-903);
  * the prompt-processing block of `render_chat_interface`
    (app.py lines 917-937), called `process_prompt` here because the
    Python code inlines it;
  * the history display policy of `render_chat_interface`
    (app.py lines 940-966), called `render_history` here;
  * the reset button action of `render_main_content`
    (app.py lines 1082-1084), called `reset_messages` here;
  * `get_user_info` (app.py lines 56-72).

The remote endpoint `query_endpoint` is external to the repository; a
pass is parameterised by a function producing its outcome, and the
dynamic shape of a successful response (bare string, or object with an
optional `content` field) is a tagged union.
-/

namespace RagChat

/-- A chat message, `{"role": ..., "content": ...}` as appended in
`render_chat_interface` (app.py lines 922 and 932). Roles used by the
code are the strings "user" and "assistant". -/
structure Message where
  role : String
  content : String
deriving DecidableEq, Repr

/-- The per-session mutable state held in `st.session_state`:
`messages` (initialised to `[]` in `initialize_session_state`, line 81),
`show_all_messages` (read with default `False` at line 943) and
`selected_question` (absent until a suggestion button is clicked at
line 1065; absence is `none`). -/
structure SessionState where
  messages : List Message
  show_all_messages : Bool
  selected_question : Option String
deriving DecidableEq, Repr

/-- The session state right after `initialize_session_state` on a fresh
session: empty message log, show-all toggle at its `False` default,
no selected question. -/
def init_state : SessionState :=
  { messages := [], show_all_messages := false, selected_question := none }

/-- A successful result of `query_endpoint`: the code at app.py line 931
distinguishes a bare string from a structured object from which it reads
an optional "content" field, so the result is this tagged union. -/
inductive EndpointResponse where
  | str (s : String)
  | obj (content : Option String)
deriving DecidableEq, Repr

/-- The argument record of one `query_endpoint` invocation
(app.py lines 926-930): the message list sent and the `max_tokens`
parameter. -/
structure EndpointCall where
  messages : List Message
  max_tokens : Nat
deriving DecidableEq, Repr

/-- Normalisation of the endpoint result, app.py line 931:
`response if isinstance(response, str) else response.get("content", "")`. -/
def normalize_response : EndpointResponse → String
  | .str s => s
  | .obj c => c.getD ""

/-- The user interaction consumed by `handle_question_selection` while a
question is selected: clicking "Use this question", clicking
"Clear selection", or neither. -/
inductive StagerAction where
  | useQuestion
  | clearQuestion
  | idle
deriving DecidableEq, Repr

/-- `handle_question_selection` (app.py lines 878-903). When
`selected_question` is present the free-text `st.chat_input` widget is
never rendered: "Use this question" returns the selected text after
deleting it, "Clear selection" deletes it and reruns, and otherwise the
pass returns `None`. When nothing is selected the function returns the
free-text input (which is `None` when nothing was typed this pass).
Returns the resolved prompt and the updated state. -/
def handle_question_selection (st : SessionState) (action : StagerAction)
    (chatInput : Option String) : Option String × SessionState :=
  match st.selected_question with
  | some q =>
    match action with
    | .useQuestion => (some q, { st with selected_question := none })
    | .clearQuestion => (none, { st with selected_question := none })
    | .idle => (none, st)
  | none => (chatInput, st)

/-- The prompt-processing block of `render_chat_interface`
(app.py lines 920-937). `if prompt:` is Python truthiness on an optional
string: `None` and `""` are both skipped. On a truthy prompt the user
message is appended, `query_endpoint` is invoked with the full updated
message list and `max_tokens=400`, and on success the normalised
assistant message is appended; on an exception nothing further is
appended. Returns the updated state and the call made, if any. -/
def process_prompt (endpoint : EndpointCall → Except String EndpointResponse)
    (st : SessionState) (prompt : Option String) :
    SessionState × Option EndpointCall :=
  match prompt with
  | none => (st, none)
  | some p =>
    if p = "" then (st, none)
    else
      let msgs := st.messages ++ [Message.mk "user" p]
      let call : EndpointCall := { messages := msgs, max_tokens := 400 }
      match endpoint call with
      | .ok r =>
        ({ st with messages := msgs ++ [Message.mk "assistant" (normalize_response r)] },
         some call)
      | .error _ => ({ st with messages := msgs }, some call)

/-- The message-handling part of one render pass of
`render_chat_interface` (app.py lines 917-937): resolve the prompt via
`handle_question_selection`, then process it. -/
def render_chat_pass (endpoint : EndpointCall → Except String EndpointResponse)
    (st : SessionState) (action : StagerAction) (chatInput : Option String) :
    SessionState × Option EndpointCall :=
  let res := handle_question_selection st action chatInput
  process_prompt endpoint res.2 res.1

/-- The history display policy of `render_chat_interface`
(app.py lines 940-966), as a pure function of the message list and the
show-all toggle: the list of messages rendered and the hidden-count of
the truncation banner, `none` when no banner is shown. The inner banner
condition `not show_all and total_messages > 6` of line 961 is kept
as written (it is unreachable inside its branch). -/
def render_history (messages : List Message) (show_all : Bool) :
    List Message × Option Nat :=
  let total := messages.length
  if show_all || total ≤ 6 then
    (messages, if !show_all && total > 6 then some (total - 6) else none)
  else
    (messages.drop (total - 6), some (total - 6))

/-- The reset button action of `render_main_content`
(app.py lines 1082-1084): `st.session_state.messages = []` followed by a
rerun. Nothing else in the session state is touched. -/
def reset_messages (st : SessionState) : SessionState :=
  { st with messages := [] }

/-- Clicking a suggested question in `render_main_content`
(app.py line 1065): `st.session_state.selected_question = question`. -/
def stage (st : SessionState) (q : String) : SessionState :=
  { st with selected_question := some q }

/-- The environment seen by `get_user_info`: accessing
`st.context.headers` may raise, the attribute may be absent or falsy
(then `getattr(..., {}) or {}` yields `{}`), or it yields a header
mapping. -/
inductive HeaderSource where
  | raises
  | absent
  | headers (hs : List (String × String))
deriving DecidableEq, Repr

/-- Dictionary lookup `headers.get(k)` on the header mapping. -/
def lookupHeader (hs : List (String × String)) (k : String) : Option String :=
  (hs.find? (fun p => p.1 == k)).map (fun p => p.2)

/-- `get_user_info` (app.py lines 56-72), reduced to the `user_email`
field it produces: `headers.get("X-Forwarded-Email", "Not available")`
inside a `try`, with the `except` branch returning "Not available". -/
def get_user_info : HeaderSource → String
  | .raises => "Not available"
  | .absent => "Not available"
  | .headers hs => (lookupHeader hs "X-Forwarded-Email").getD "Not available"

/-- Run a sequence of render passes in which each pass types one
free-text prompt and the endpoint produces the given outcome for that
pass's call. -/
def run_typed_turns (st : SessionState)
    (turns : List (String × Except String EndpointResponse)) : SessionState :=
  turns.foldl
    (fun s t => (render_chat_pass (fun _ => t.2) s StagerAction.idle (some t.1)).1)
    st

/-- The messages a single typed turn contributes to the log: the user
entry, followed by the normalised assistant entry when the call
succeeded. -/
def turn_messages (t : String × Except String EndpointResponse) : List Message :=
  match t.2 with
  | .ok r => [Message.mk "user" t.1, Message.mk "assistant" (normalize_response r)]
  | .error _ => [Message.mk "user" t.1]

/-- Number of user-role entries in a message list. -/
def count_user (ms : List Message) : Nat :=
  (ms.filter (fun m => m.role == "user")).length

end RagChat

namespace RagChat

lemma hqs_messages (st : SessionState) (a : StagerAction) (c : Option String) :
    ((handle_question_selection st a c).2).messages = st.messages := by
  unfold handle_question_selection
  cases hsel : st.selected_question <;> cases a <;> simp

lemma hqs_staged_none (st : SessionState) (c : Option String) (q : String)
    (h : st.selected_question = some q) :
    handle_question_selection st StagerAction.useQuestion c
      = (some q, { st with selected_question := none }) := by
  unfold handle_question_selection
  simp [h]

lemma process_messages_extend (ep : EndpointCall → Except String EndpointResponse)
    (st : SessionState) (prompt : Option String) :
    ∃ tail, ((process_prompt ep st prompt).1).messages = st.messages ++ tail
      ∧ count_user tail ≤ 1
      ∧ ((process_prompt ep st prompt).1).selected_question = st.selected_question
      ∧ ((process_prompt ep st prompt).1).show_all_messages = st.show_all_messages := by
  unfold process_prompt
  cases prompt with
  | none => exact ⟨[], by simp, by simp [count_user], rfl, rfl⟩
  | some p =>
    by_cases hp : p = ""
    · exact ⟨[], by simp [hp], by simp [count_user], by simp [hp], by simp [hp]⟩
    · cases hep : ep { messages := st.messages ++ [Message.mk "user" p], max_tokens := 400 } with
      | ok r =>
        refine ⟨[Message.mk "user" p, Message.mk "assistant" (normalize_response r)], ?_, ?_, ?_, ?_⟩
        · simp [hp, hep]
        · simp [count_user, List.filter]
        · simp [hp, hep]
        · simp [hp, hep]
      | error e =>
        refine ⟨[Message.mk "user" p], ?_, ?_, ?_, ?_⟩
        · simp [hp, hep]
        · simp [count_user, List.filter]
        · simp [hp, hep]
        · simp [hp, hep]

end RagChat

namespace RagChat

lemma pass_typed_fst (t : String × Except String EndpointResponse)
    (ms : List Message) (b : Bool) (hp : t.1 ≠ "") :
    (render_chat_pass (fun _ => t.2) ⟨ms, b, none⟩ StagerAction.idle (some t.1)).1
      = ⟨ms ++ turn_messages t, b, none⟩ := by
  obtain ⟨p, o⟩ := t
  cases o with
  | ok r =>
    simp only [render_chat_pass, handle_question_selection, process_prompt, turn_messages]
    simp [hp]
  | error e =>
    simp only [render_chat_pass, handle_question_selection, process_prompt, turn_messages]
    simp [hp]

lemma run_typed_turns_eq (turns : List (String × Except String EndpointResponse)) :
    ∀ (ms : List Message) (b : Bool), (∀ t ∈ turns, t.1 ≠ "") →
      run_typed_turns ⟨ms, b, none⟩ turns
        = ⟨ms ++ (turns.map turn_messages).flatten, b, none⟩ := by
  induction turns with
  | nil => intro ms b _; simp [run_typed_turns]
  | cons t ts ih =>
    intro ms b h
    have ht : t.1 ≠ "" := h t (by simp)
    have hts : ∀ u ∈ ts, u.1 ≠ "" := fun u hu => h u (by simp [hu])
    have hstep := pass_typed_fst t ms b ht
    simp only [run_typed_turns, List.foldl_cons] at *
    rw [hstep, ih (ms ++ turn_messages t) b hts]
    simp

lemma join_length_ok (turns : List (String × EndpointResponse)) :
    (((turns.map (fun t => (t.1, (Except.ok t.2 : Except String EndpointResponse)))).map
        turn_messages).flatten).length = 2 * turns.length := by
  induction turns with
  | nil => simp
  | cons t ts ih =>
    simp only [List.map_cons, List.flatten_cons, List.length_append, ih, List.length_cons]
    simp [turn_messages]
    omega

lemma join_roles_ok (turns : List (String × EndpointResponse)) :
    ((((turns.map (fun t => (t.1, (Except.ok t.2 : Except String EndpointResponse)))).map
        turn_messages).flatten).map Message.role)
      = (List.replicate turns.length ["user", "assistant"]).flatten := by
  induction turns with
  | nil => simp
  | cons t ts ih =>
    simp only [List.map_cons, List.flatten_cons, List.map_append, List.replicate_succ]
    rw [ih]
    simp [turn_messages, List.length_cons, List.replicate_succ, List.flatten_cons]

end RagChat

namespace RagChat

/-- C2 counterexample state: one message in the log, show-all toggle on. -/
def c2_state : SessionState :=
  { messages := [Message.mk "user" "hi"], show_all_messages := true,
    selected_question := none }

/-- C2: the claim as stated is false on the code. On a session with one
message and the show-all toggle on, the reset button empties the log but
does not restore the toggle to false. -/
theorem C2_counterexample :
    ¬ ((reset_messages c2_state).messages = []
        ∧ (reset_messages c2_state).show_all_messages = false) := by
  decide

/-- C2 amended: on a session with any history, the reset action yields
an empty message log and leaves `show_all_messages` (and the staged
question) unchanged; the toggle is not restored to its false default. -/
theorem C2_reset (st : SessionState) (hne : st.messages ≠ []) :
    (reset_messages st).messages = []
    ∧ (reset_messages st).show_all_messages = st.show_all_messages
    ∧ (reset_messages st).selected_question = st.selected_question := by
  simp [reset_messages]

/-- C2 witness: the amended reset theorem at the concrete state. -/
theorem C2_reset_witness :
    c2_state.messages ≠ []
    ∧ (reset_messages c2_state).messages = []
    ∧ (reset_messages c2_state).show_all_messages = c2_state.show_all_messages :=
  ⟨by decide, (C2_reset c2_state (by decide)).1, (C2_reset c2_state (by decide)).2.1⟩

/-- C3: the history presenter renders all messages with no banner when
the log has at most 6 entries; with more than 6 entries and the toggle
off it renders exactly a length-6 suffix of the log (the last 6, in
order) with a banner reporting `length - 6` hidden earlier messages;
with more than 6 entries and the toggle on it renders all messages with
no banner. -/
theorem C3_render_history (ms : List Message) (sa : Bool) :
    (ms.length ≤ 6 → render_history ms sa = (ms, none))
    ∧ (ms.length > 6 → sa = false →
        (render_history ms sa).2 = some (ms.length - 6)
        ∧ ((render_history ms sa).1).length = 6
        ∧ ∃ earlier, ms = earlier ++ (render_history ms sa).1
            ∧ earlier.length = ms.length - 6)
    ∧ (ms.length > 6 → sa = true → render_history ms sa = (ms, none)) := by
  refine ⟨?_, ?_, ?_⟩
  · intro h
    have h6 : ¬ ms.length > 6 := by omega
    cases sa <;> simp [render_history, h, h6]
  · intro h hsa
    subst hsa
    have h6 : ¬ ms.length ≤ 6 := by omega
    refine ⟨by simp [render_history, h6], by simp [render_history, h6]; omega, ?_⟩
    refine ⟨ms.take (ms.length - 6), ?_, ?_⟩
    · simp [render_history, h6]
    · simp
  · intro h hsa
    subst hsa
    simp [render_history, h]

/-- C3 witness list: seven messages. -/
def c3_list : List Message := List.replicate 7 (Message.mk "user" "x")

/-- C3 witness: the presenter theorem at a concrete length-7 log with
the toggle off. -/
theorem C3_witness :
    (render_history c3_list false).2 = some (c3_list.length - 6)
    ∧ ((render_history c3_list false).1).length = 6 :=
  ⟨((C3_render_history c3_list false).2.1 (by decide) rfl).1,
   ((C3_render_history c3_list false).2.1 (by decide) rfl).2.1⟩

/-- C5: response normalisation and appending, for every non-empty
prompt: a bare string `s` yields an appended assistant message with
content `s`; a structured object with content field `s` yields the
same; a structured object without a content field yields an appended
assistant message with empty content. -/
theorem C5_normalization (st : SessionState) (p s : String) (hp : p ≠ "") :
    ((process_prompt (fun _ => Except.ok (EndpointResponse.str s)) st (some p)).1).messages
        = st.messages ++ [Message.mk "user" p, Message.mk "assistant" s]
    ∧ ((process_prompt (fun _ => Except.ok (EndpointResponse.obj (some s))) st (some p)).1).messages
        = st.messages ++ [Message.mk "user" p, Message.mk "assistant" s]
    ∧ ((process_prompt (fun _ => Except.ok (EndpointResponse.obj none)) st (some p)).1).messages
        = st.messages ++ [Message.mk "user" p, Message.mk "assistant" ""] := by
  refine ⟨?_, ?_, ?_⟩ <;> simp [process_prompt, normalize_response, hp]

/-- C5 witness: normalisation of a bare string at concrete inputs. -/
theorem C5_witness :
    ((process_prompt (fun _ => Except.ok (EndpointResponse.str "hello")) init_state
        (some "q")).1).messages
      = init_state.messages ++ [Message.mk "user" "q", Message.mk "assistant" "hello"] :=
  (C5_normalization init_state "q" "hello" (by decide)).1

/-- C6: on a non-empty prompt the controller appends the user message
and invokes the endpoint with the full updated message list (the prior
log plus the just-appended user entry) and `max_tokens = 400`; whatever
the outcome, the resulting log starts with the prior log followed by
the user entry. -/
theorem C6_controller_call (ep : EndpointCall → Except String EndpointResponse)
    (st : SessionState) (p : String) (hp : p ≠ "") :
    (process_prompt ep st (some p)).2
        = some { messages := st.messages ++ [Message.mk "user" p], max_tokens := 400 }
    ∧ ∃ rest, ((process_prompt ep st (some p)).1).messages
        = st.messages ++ Message.mk "user" p :: rest := by
  unfold process_prompt
  cases hep : ep { messages := st.messages ++ [Message.mk "user" p], max_tokens := 400 } with
  | ok r =>
    refine ⟨by simp [hp, hep], ⟨[Message.mk "assistant" (normalize_response r)], by simp [hp, hep]⟩⟩
  | error e =>
    refine ⟨by simp [hp, hep], ⟨[], by simp [hp, hep]⟩⟩

/-- C6 witness: the controller call record at a concrete prompt and a
failing endpoint. -/
theorem C6_witness :
    (process_prompt (fun _ => Except.error "boom") init_state (some "q")).2
      = some { messages := init_state.messages ++ [Message.mk "user" "q"],
               max_tokens := 400 } :=
  (C6_controller_call (fun _ => Except.error "boom") init_state "q" (by decide)).1

/-- C7: the question stager. Staging a question and confirming returns
that question and leaves the staged slot empty; staging and discarding
leaves the staged slot empty, returns nothing and leaves `messages`
unchanged; confirming with nothing staged returns nothing. -/
theorem C7_stager (st : SessionState) (q : String) :
    (handle_question_selection (stage st q) StagerAction.useQuestion none).1 = some q
    ∧ ((handle_question_selection (stage st q) StagerAction.useQuestion none).2).selected_question = none
    ∧ (handle_question_selection (stage st q) StagerAction.clearQuestion none).1 = none
    ∧ ((handle_question_selection (stage st q) StagerAction.clearQuestion none).2).selected_question = none
    ∧ ((handle_question_selection (stage st q) StagerAction.clearQuestion none).2).messages = st.messages
    ∧ (handle_question_selection { st with selected_question := none }
        StagerAction.useQuestion none).1 = none := by
  simp [handle_question_selection, stage]

/-- C9: the user-identity lookup is a total function; whenever the
header access raises, the header attribute is absent, or the email
header is missing from the mapping, it yields the sentinel
"Not available". -/
theorem C9_identity (h : HeaderSource) :
    (∃ s, get_user_info h = s)
    ∧ (h = HeaderSource.raises → get_user_info h = "Not available")
    ∧ (h = HeaderSource.absent → get_user_info h = "Not available")
    ∧ (∀ hs, h = HeaderSource.headers hs →
        lookupHeader hs "X-Forwarded-Email" = none →
        get_user_info h = "Not available") := by
  refine ⟨⟨get_user_info h, rfl⟩, ?_, ?_, ?_⟩
  · intro hh; subst hh; rfl
  · intro hh; subst hh; rfl
  · intro hs hh hl; subst hh; simp [get_user_info, hl]

/-- C9 witness: the identity theorem at the raising header source. -/
theorem C9_witness : get_user_info HeaderSource.raises = "Not available" :=
  (C9_identity HeaderSource.raises).2.1 rfl

/-- C10 witness state: a staged question and an empty log. -/
def c10_state : SessionState :=
  { messages := [], show_all_messages := false, selected_question := some "Q" }

/-- C10: confirming a staged question clears the staged slot before the
endpoint is invoked, so after a failing call the staged question is
still absent and the appended user message remains in the log. -/
theorem C10_confirm_clears (st : SessionState) (q err : String)
    (c : Option String) (hq : st.selected_question = some q) (hne : q ≠ "") :
    ((render_chat_pass (fun _ => Except.error err) st StagerAction.useQuestion c).1).selected_question = none
    ∧ ((render_chat_pass (fun _ => Except.error err) st StagerAction.useQuestion c).1).messages
        = st.messages ++ [Message.mk "user" q] := by
  unfold render_chat_pass
  rw [hqs_staged_none st c q hq]
  simp [process_prompt, hne]

/-- C10 witness: the theorem at the concrete staged state. -/
theorem C10_witness :
    ((render_chat_pass (fun _ => Except.error "boom") c10_state
        StagerAction.useQuestion none).1).messages
      = c10_state.messages ++ [Message.mk "user" "Q"] :=
  (C10_confirm_clears c10_state "Q" "boom" none rfl (by decide)).2

end RagChat

namespace RagChat

lemma count_user_append (xs ys : List Message) :
    count_user (xs ++ ys) = count_user xs + count_user ys := by
  simp [count_user, List.filter_append]

/-- C4: starting from the fresh session state, after a sequence of
render passes each consuming one non-empty prompt whose endpoint call
succeeds, the log has exactly twice as many entries as prompts and the
roles alternate user, assistant, user, assistant, ... starting with
user; moreover any render pass only extends the message log (nothing is
removed or rewritten). -/
theorem C4_success_run (turns : List (String × EndpointResponse))
    (h : ∀ t ∈ turns, t.1 ≠ "") :
    ((run_typed_turns init_state
        (turns.map (fun t => (t.1, (Except.ok t.2 : Except String EndpointResponse))))).messages).length
      = 2 * turns.length
    ∧ ((run_typed_turns init_state
        (turns.map (fun t => (t.1, (Except.ok t.2 : Except String EndpointResponse))))).messages).map Message.role
      = (List.replicate turns.length ["user", "assistant"]).flatten
    ∧ ∀ (ep : EndpointCall → Except String EndpointResponse) (st : SessionState)
        (a : StagerAction) (c : Option String),
        ∃ tail, ((render_chat_pass ep st a c).1).messages = st.messages ++ tail := by
  have hmap : ∀ u ∈ turns.map
      (fun t => (t.1, (Except.ok t.2 : Except String EndpointResponse))), u.1 ≠ "" := by
    intro u hu
    obtain ⟨t, ht, rfl⟩ := List.mem_map.mp hu
    exact h t ht
  have hrun := run_typed_turns_eq _ [] false hmap
  rw [show init_state = ⟨[], false, none⟩ from rfl, hrun]
  refine ⟨?_, ?_, ?_⟩
  · simpa using join_length_ok turns
  · simpa using join_roles_ok turns
  · intro ep st a c
    obtain ⟨tail, hmsg, -, -, -⟩ := process_messages_extend ep
      (handle_question_selection st a c).2 (handle_question_selection st a c).1
    refine ⟨tail, ?_⟩
    simp only [render_chat_pass]
    rw [hmsg, hqs_messages]

/-- C4 witness turns: two prompts, both answered. -/
def c4_turns : List (String × EndpointResponse) :=
  [("a", EndpointResponse.str "x"), ("b", EndpointResponse.obj (some "y"))]

/-- C4 witness: the success-run theorem at two concrete turns. -/
theorem C4_witness :
    ((run_typed_turns init_state
        (c4_turns.map (fun t => (t.1, (Except.ok t.2 : Except String EndpointResponse))))).messages).length
      = 2 * c4_turns.length :=
  (C4_success_run c4_turns (by decide)).1

/-- C1: if the first k-1 prompts all succeed and the k-th remote call
fails, then after that pass the log is exactly the k-1 successful pairs
followed by the k-th user message — no assistant entry was appended for
the failed call and the user message stands — and its length is
2(k-1)+1. -/
theorem C1_failed_call (pre : List (String × EndpointResponse)) (pk err : String)
    (hpre : ∀ t ∈ pre, t.1 ≠ "") (hpk : pk ≠ "") :
    ((run_typed_turns init_state
        ((pre.map (fun t => (t.1, (Except.ok t.2 : Except String EndpointResponse))))
          ++ [(pk, Except.error err)])).messages)
      = (((pre.map (fun t => (t.1, (Except.ok t.2 : Except String EndpointResponse)))).map
            turn_messages).flatten) ++ [Message.mk "user" pk]
    ∧ ((run_typed_turns init_state
        ((pre.map (fun t => (t.1, (Except.ok t.2 : Except String EndpointResponse))))
          ++ [(pk, Except.error err)])).messages).length
      = 2 * pre.length + 1 := by
  have hmap : ∀ u ∈ (pre.map
      (fun t => (t.1, (Except.ok t.2 : Except String EndpointResponse))))
        ++ [(pk, Except.error err)], u.1 ≠ "" := by
    intro u hu
    rcases List.mem_append.mp hu with h1 | h2
    · obtain ⟨t, ht, rfl⟩ := List.mem_map.mp h1
      exact hpre t ht
    · rw [List.mem_singleton.mp h2]
      exact hpk
  have hrun := run_typed_turns_eq _ [] false hmap
  have h1 : ((run_typed_turns init_state
      ((pre.map (fun t => (t.1, (Except.ok t.2 : Except String EndpointResponse))))
        ++ [(pk, Except.error err)])).messages)
      = (((pre.map (fun t => (t.1, (Except.ok t.2 : Except String EndpointResponse)))).map
            turn_messages).flatten) ++ [Message.mk "user" pk] := by
    rw [show init_state = ⟨[], false, none⟩ from rfl, hrun]
    simp [List.map_append, List.flatten_append, turn_messages]
  refine ⟨h1, ?_⟩
  rw [h1, List.length_append, join_length_ok]
  simp

/-- C1 witness turns: one successful prompt before the failing one. -/
def c1_pre : List (String × EndpointResponse) := [("a", EndpointResponse.str "x")]

/-- C1 witness: the failed-call theorem with one prior success, so the
log after the failing pass has 2(2-1)+1 = 3 entries. -/
theorem C1_witness :
    ((run_typed_turns init_state
        ((c1_pre.map (fun t => (t.1, (Except.ok t.2 : Except String EndpointResponse))))
          ++ [("b", Except.error "boom")])).messages).length
      = 2 * c1_pre.length + 1 :=
  (C1_failed_call c1_pre "b" "boom" (by decide) (by decide)).2

/-- C8: when a question is staged, the resolved input of the pass does
not depend on the free-text widget (staged state blocks the free-text
path); and any single render pass adds at most one user-role entry to
the log, so a pass consumes at most one new user input. -/
theorem C8_single_input (st : SessionState) (a : StagerAction)
    (c₁ c₂ : Option String) (ep : EndpointCall → Except String EndpointResponse)
    (c : Option String) :
    (st.selected_question.isSome = true →
      handle_question_selection st a c₁ = handle_question_selection st a c₂)
    ∧ count_user ((render_chat_pass ep st a c).1).messages
        ≤ count_user st.messages + 1 := by
  constructor
  · intro hsome
    obtain ⟨q, hq⟩ := Option.isSome_iff_exists.mp hsome
    unfold handle_question_selection
    simp [hq]
  · obtain ⟨tail, hmsg, hcount, -, -⟩ := process_messages_extend ep
      (handle_question_selection st a c).2 (handle_question_selection st a c).1
    simp only [render_chat_pass]
    rw [hmsg, hqs_messages, count_user_append]
    omega

/-- C8 witness state: a staged question. -/
def c8_state : SessionState :=
  { messages := [], show_all_messages := false, selected_question := some "Q" }

/-- C8 witness: with a question staged, the pass resolves the same
input whether or not free text was typed. -/
theorem C8_witness :
    handle_question_selection c8_state StagerAction.idle (some "t")
      = handle_question_selection c8_state StagerAction.idle none :=
  (C8_single_input c8_state StagerAction.idle (some "t") none
    (fun _ => Except.error "e") none).1 (by decide)

end RagChat
